import Mathlib

/-!
Verification development for the McBopomofo fcitx5 key handler
(src/KeyHandler.cpp of fcitx5-mcbopomofo).

The development shallowly embeds the key handler's state machine.  Pure
helper functions of KeyHandler.cpp (MarkedPhraseExists, FindHighestScore,
getComposedString, buildInputtingState, buildChoosingCandidateState,
buildMarkingState, actualCandidateCursorIndex, popEvictedTextAndWalk,
pinNode, handleCursorKeys, handleDeleteKeys, handle) are translated
directly from the source.  The collaborating libraries (the Gramambular
grid/walker, the Mandarin reading buffer, the user override model and the
language model) are not part of the sources; they are modelled from the
spec, either as abstract environment functions or as small spec-faithful
definitions, each marked as such in its doc comment.

Floating point scores are modelled as rational numbers; C++ double
arithmetic in the relevant code is limited to comparisons and a single
addition, which the rational model represents exactly.  String cursor
arithmetic, done in UTF-8 bytes in the C++ code, is modelled in
codepoints; the C++ code only ever lands on codepoint boundaries, so the
two models agree on all splits.
-/

namespace McBopomofo

/-- A language model entry: (value, score).  The key is implicit in the
lookup function.  Translated from Formosa::Gramambular::Unigram, with the
double score modelled as a rational. -/
structure Unigram where
  value : String
  score : ℚ
deriving DecidableEq

/-- Modelled from the spec: the language model facade is one lookup
surface from reading keys to ordered unigram lists (the post-filter
result of McBopomofoLM::unigramsForKey). -/
def LM : Type := String → List Unigram

/-- Modelled from the spec: hasUnigramsForKey is true only if at least
one unigram survives the filter pipeline, i.e. the lookup is non-empty. -/
def hasUnigramsForKey (lm : LM) (key : String) : Bool :=
  !(lm key).isEmpty

/-- Modelled from the spec: a Gramambular Node carries the joined reading
key and an ordered candidate list (value, score), plus the index of the
currently selected candidate (0 = the top-scored one). -/
structure Node where
  key : String
  unigrams : List Unigram
  selectedIndex : Nat := 0
deriving DecidableEq

/-- Modelled from the spec: Node::currentKeyValue().value, the value of
the currently selected candidate. -/
def Node.currentValue (n : Node) : String :=
  match n.unigrams.get? n.selectedIndex with
  | some u => u.value
  | none => ""

/-- Modelled from the spec: Node::highestUnigramScore(), the largest
unigram score carried by the node (0 for a node with no unigrams). -/
def Node.highestUnigramScore (n : Node) : ℚ :=
  match n.unigrams with
  | [] => 0
  | u :: us => us.foldl (fun m g => max m g.score) u.score

/-- Modelled from the spec: Node::scoreForCandidate(candidate), the score
stored for the given candidate value, 0 when absent. -/
def Node.scoreForCandidate (n : Node) (value : String) : ℚ :=
  match n.unigrams.find? (fun u => u.value == value) with
  | some u => u.score
  | none => 0

/-- Modelled from the spec: a NodeAnchor places a Node at a span
[location, location + spanningLength) of the grid. -/
structure NodeAnchor where
  node : Node
  location : Nat
  spanningLength : Nat
deriving DecidableEq

/-- Modelled from the spec: Grid::nodesCrossingOrEndingAt(location)
enumerates the anchors whose span strictly begins before the position and
ends at or after it, in grid (discovery) order. -/
def nodesCrossingOrEndingAt (nodes : List NodeAnchor) (location : Nat) :
    List NodeAnchor :=
  nodes.filter (fun a =>
    decide (a.location < location) &&
    decide (location ≤ a.location + a.spanningLength))

/-- Modelled from the spec: the Mandarin BopomofoReadingBuffer
observations as functions of the raw key sequence, under a fixed
keyboard layout.  The name feeds the layout-specific punctuation key. -/
structure BopomofoLayout where
  name : String
  isValidKey : Char → Bool
  hasToneMarker : List Char → Bool
  syllable : List Char → String
  composedString : List Char → String

/-- Modelled from the spec: the Gramambular machinery absent from the
sources, as abstract environment functions — node construction from the
reading slots, the Viterbi walk over the grid nodes, and the user
override model's suggest at a fixed observation time. -/
structure GramEnv where
  buildNodes : List String → List NodeAnchor
  walkFn : List NodeAnchor → List NodeAnchor
  suggest : List NodeAnchor → Nat → String

/-- The mutable state of a KeyHandler: the in-progress reading key
sequence, the builder's reading slots and cursor, the grid's node set,
the latest walked path, and the two configuration flags. -/
structure HandlerState where
  reading : List Char
  readings : List String
  cursor : Nat
  gridNodes : List NodeAnchor
  walkedNodes : List NodeAnchor
  selectPhraseAfterCursorAsCandidate : Bool := false
  moveCursorAfterSelection : Bool := false
deriving DecidableEq

/-- InputStates::Inputting. -/
structure InputtingS where
  composingBuffer : String
  cursorIndex : Nat
  tooltip : String := ""
  evictedText : String := ""
deriving DecidableEq

/-- InputStates::ChoosingCandidate. -/
structure ChoosingCandidateS where
  composingBuffer : String
  cursorIndex : Nat
  candidates : List String
deriving DecidableEq

/-- InputStates::Marking. -/
structure MarkingS where
  composingBuffer : String
  cursorIndex : Nat
  tooltip : String
  markStartGridCursorIndex : Nat
  head : String
  markedText : String
  tail : String
  reading : String
  acceptable : Bool
deriving DecidableEq

/-- The InputState variants of InputState.h as a tagged union. -/
inductive InputState where
  | empty
  | emptyIgnoringPrevious
  | committing (text : String)
  | inputting (s : InputtingS)
  | choosingCandidate (s : ChoosingCandidateS)
  | marking (s : MarkingS)
deriving DecidableEq

/-- The composing buffer and cursor of a NotEmpty state (the result of
the dynamic_cast to InputStates::NotEmpty). -/
def InputState.notEmptyData : InputState → Option (String × Nat)
  | .inputting s => some (s.composingBuffer, s.cursorIndex)
  | .choosingCandidate s => some (s.composingBuffer, s.cursorIndex)
  | .marking s => some (s.composingBuffer, s.cursorIndex)
  | _ => none

/-- Whether the state is a NotEmpty variant. -/
def InputState.isNotEmpty (s : InputState) : Bool :=
  s.notEmptyData.isSome

/-- Observable side effects on the grid, the override model and the
phrase store, recorded in call order. -/
inductive GridOp where
  | overrideScore (position : Nat) (value : String) (score : ℚ)
  | fixNode (position : Nat) (value : String)
  | observe (position : Nat) (value : String)
  | addUserPhrase (reading : String) (value : String)
deriving DecidableEq

/-- The outcome of one KeyHandler::handle call: whether the key was
absorbed, the states emitted through the state callback in order, whether
the error callback fired, the handler state afterwards, and the recorded
side effects. -/
structure HandleResult where
  absorbed : Bool
  emitted : List InputState
  errRaised : Bool
  afterState : HandlerState
  trace : List GridOp
deriving DecidableEq

/-- The key symbols the handler distinguishes, plus the shift modifier
and the printable ASCII character of a simple key (none when the key is
not simple, in which case the C++ asciiChar is 0). -/
inductive KeySym where
  | left
  | right
  | home
  | endKey
  | backspace
  | deleteKey
  | enter
  | escape
  | space
  | grave
  | other
deriving DecidableEq

/-- A logical key event. -/
structure Key where
  sym : KeySym
  shift : Bool := false
  ascii : Option Char := none
deriving DecidableEq

/-- fcitx::Key::check against an unmodified key: same symbol, no shift. -/
def Key.checkSym (k : Key) (s : KeySym) : Bool :=
  k.sym == s && !k.shift

/-- kMinValidMarkingReadingCount of KeyHandler.cpp. -/
def kMinValidMarkingReadingCount : Nat := 2

/-- kMaxValidMarkingReadingCount of KeyHandler.cpp. -/
def kMaxValidMarkingReadingCount : Nat := 6

/-- kNoOverrideThreshold of KeyHandler.cpp (-8.0). -/
def kNoOverrideThreshold : ℚ := -8

/-- kEpsilon of KeyHandler.cpp (0.000001). -/
def kEpsilon : ℚ := 1 / 1000000

/-- kComposingBufferSize of KeyHandler.cpp (the soft cap of 10 slots). -/
def kComposingBufferSize : Nat := 10

/-- MarkedPhraseExists of KeyHandler.cpp: the language model has unigrams
for the reading and one of them carries exactly the marked value. -/
def MarkedPhraseExists (lm : LM) (reading : String) (value : String) : Bool :=
  if !hasUnigramsForKey lm reading then false
  else (lm reading).any (fun u => u.value == value)

/-- FindHighestScore of KeyHandler.cpp: fold the anchors' highest unigram
scores starting from 0.0, then add epsilon. -/
def FindHighestScore (nodeAnchors : List NodeAnchor) (epsilon : ℚ) : ℚ :=
  (nodeAnchors.foldl
    (fun highestScore a =>
      if highestScore < a.node.highestUnigramScore then
        a.node.highestUnigramScore
      else highestScore) 0) + epsilon

/-- Modelled from the spec: BlockReadingBuilder::insertReadingAtCursor
splits at the cursor, inserts one slot, rebuilds the nodes and advances
the cursor by one. -/
def insertReadingAtCursor (env : GramEnv) (reading : String)
    (hs : HandlerState) : HandlerState :=
  let readings :=
    hs.readings.take hs.cursor ++ [reading] ++ hs.readings.drop hs.cursor
  { hs with
    readings := readings
    cursor := hs.cursor + 1
    gridNodes := env.buildNodes readings }

/-- Modelled from the spec: BlockReadingBuilder::removeHeadReadings(n)
evicts the n leading slots, rebuilding the nodes and pulling the cursor
back by the same amount (saturating at 0). -/
def removeHeadReadings (env : GramEnv) (n : Nat)
    (hs : HandlerState) : HandlerState :=
  let readings := hs.readings.drop n
  { hs with
    readings := readings
    cursor := hs.cursor - n
    gridNodes := env.buildNodes readings }

/-- Modelled from the spec: deleteReadingBeforeCursor removes the slot
just before the cursor and rebuilds the nodes. -/
def deleteReadingBeforeCursor (env : GramEnv)
    (hs : HandlerState) : HandlerState :=
  let readings := hs.readings.eraseIdx (hs.cursor - 1)
  { hs with
    readings := readings
    cursor := hs.cursor - 1
    gridNodes := env.buildNodes readings }

/-- Modelled from the spec: deleteReadingAfterCursor removes the slot
just after the cursor and rebuilds the nodes. -/
def deleteReadingAfterCursor (env : GramEnv)
    (hs : HandlerState) : HandlerState :=
  let readings := hs.readings.eraseIdx hs.cursor
  { hs with
    readings := readings
    gridNodes := env.buildNodes readings }

/-- KeyHandler::walk, with the Viterbi walker abstracted into the
environment: recompute the walked path from the current grid nodes. -/
def walk (env : GramEnv) (hs : HandlerState) : HandlerState :=
  { hs with walkedNodes := env.walkFn hs.gridNodes }

/-- Modelled from the spec: Node-level effect of
Grid::overrideNodeScoreForSelectedCandidate — raise the stored score of
the matching candidate without altering the candidate set, and select
it. -/
def Node.overrideScoreForCandidate (n : Node) (value : String)
    (score : ℚ) : Node :=
  { n with
    unigrams := n.unigrams.map (fun u =>
      if u.value == value then { u with score := score } else u)
    selectedIndex := (n.unigrams.findIdx? (fun u => u.value == value)).getD
      n.selectedIndex }

/-- Modelled from the spec:
Grid::overrideNodeScoreForSelectedCandidate(position, value, score)
applies the score override to the nodes crossing or ending at the
position that carry the value. -/
def overrideNodeScoreForSelectedCandidate (position : Nat) (value : String)
    (score : ℚ) (hs : HandlerState) : HandlerState :=
  { hs with
    gridNodes := hs.gridNodes.map (fun a =>
      if decide (a.location < position) &&
          decide (position ≤ a.location + a.spanningLength) &&
          a.node.unigrams.any (fun u => u.value == value) then
        { a with node := a.node.overrideScoreForCandidate value score }
      else a) }

/-- Modelled from the spec:
Grid::fixNodeSelectedCandidate(position, value) pins the first node
crossing or ending at the position that carries the value, and returns
the selected anchor together with the updated node set. -/
def fixNodeSelectedCandidate (nodes : List NodeAnchor) (position : Nat)
    (value : String) : Option NodeAnchor × List NodeAnchor :=
  match (nodesCrossingOrEndingAt nodes position).find?
      (fun a => a.node.unigrams.any (fun u => u.value == value)) with
  | none => (none, nodes)
  | some sel =>
      (some sel,
       nodes.map (fun a =>
         if a == sel then
           { a with node := { a.node with
             selectedIndex :=
               ((a.node.unigrams.findIdx? (fun u => u.value == value)).getD
                 a.node.selectedIndex) } }
         else a))

/-- KeyHandler::actualCandidateCursorIndex, translated from the source. -/
def actualCandidateCursorIndex (hs : HandlerState) : Nat :=
  if hs.selectPhraseAfterCursorAsCandidate then
    if hs.cursor < hs.readings.length then hs.cursor + 1 else hs.cursor
  else
    if hs.cursor == 0 && decide (0 < hs.readings.length) then 1
    else hs.cursor

/-- KeyHandler::popEvictedTextAndWalk, translated from the source: when
the grid width exceeds the composing cap and the walked path is
non-empty, evict the leading walked node's full span and surface its
composed value; then walk. -/
def popEvictedTextAndWalk (env : GramEnv)
    (hs : HandlerState) : String × HandlerState :=
  let pair :=
    if kComposingBufferSize < hs.readings.length then
      match hs.walkedNodes with
      | anchor :: _ =>
          (anchor.node.currentValue,
           removeHeadReadings env anchor.spanningLength hs)
      | [] => ("", hs)
    else ("", hs)
  (pair.1, walk env pair.2)

/-- The head/tail split of KeyHandler::getComposedString. -/
structure ComposedString where
  head : String
  tail : String
  tooltip : String
deriving DecidableEq

/-- One loop iteration of KeyHandler::getComposedString over a walked
anchor, on the accumulator (runningCursor, composed, composedCursor,
tooltip).  Cursor arithmetic is in codepoints (see the file comment). -/
def composedStringStep (readings : List String) (builderCursor : Nat)
    (acc : Nat × List Char × Nat × String) (anchor : NodeAnchor) :
    Nat × List Char × Nat × String :=
  let runningCursor := acc.1
  let composed := acc.2.1
  let composedCursor := acc.2.2.1
  let tooltip := acc.2.2.2
  let value := anchor.node.currentValue.toList
  let composed := composed ++ value
  if runningCursor == builderCursor then
    (runningCursor, composed, composedCursor, tooltip)
  else if runningCursor + anchor.spanningLength ≤ builderCursor then
    (runningCursor + anchor.spanningLength, composed,
     composedCursor + value.length, tooltip)
  else
    let distance := builderCursor - runningCursor
    let cpLen := min distance value.length
    let tooltip :=
      if value.length < anchor.spanningLength then
        "Cursor is between syllables " ++
          ((readings.get? (builderCursor - 1)).getD "") ++ " and " ++
          ((readings.get? builderCursor).getD "")
      else tooltip
    (runningCursor + distance, composed, composedCursor + cpLen, tooltip)

/-- KeyHandler::getComposedString, translated from the source: fold the
walked path, splitting the composed text at the builder cursor. -/
def getComposedString (hs : HandlerState) (builderCursor : Nat) :
    ComposedString :=
  let r := hs.walkedNodes.foldl
    (composedStringStep hs.readings builderCursor) (0, [], 0, "")
  let composed := r.2.1
  let composedCursor := r.2.2.1
  { head := (composed.take composedCursor).asString
    tail := (composed.drop composedCursor).asString
    tooltip := r.2.2.2 }

/-- KeyHandler::buildInputtingState, translated from the source. -/
def buildInputtingState (layout : BopomofoLayout)
    (hs : HandlerState) : InputtingS :=
  let composedString := getComposedString hs hs.cursor
  let head := composedString.head
  let reading := layout.composedString hs.reading
  let tail := composedString.tail
  { composingBuffer := head ++ reading ++ tail
    cursorIndex := head.length + reading.length
    tooltip := composedString.tooltip
    evictedText := "" }

/-- KeyHandler::buildChoosingCandidateState, translated from the source:
collect the nodes crossing or ending at the actual candidate cursor,
stable-sort them by descending reading-key length (std::stable_sort with
a strict greater-than comparator, rendered as a stable insertion sort
under the corresponding non-strict order), and concatenate their
candidate values. -/
def buildChoosingCandidateState (hs : HandlerState)
    (composingBuffer : String) (cursorIndex : Nat) : ChoosingCandidateS :=
  let anchoredNodes :=
    nodesCrossingOrEndingAt hs.gridNodes (actualCandidateCursorIndex hs)
  let sorted := List.insertionSort
    (fun a b : NodeAnchor =>
      b.node.key.utf8ByteSize ≤ a.node.key.utf8ByteSize) anchoredNodes
  { composingBuffer := composingBuffer
    cursorIndex := cursorIndex
    candidates := sorted.foldl
      (fun acc a => acc ++ a.node.unigrams.map (fun u => u.value)) [] }

/-- The reading slots covered by a marking range, translated from the
source: the slice of the builder readings between the two cursor
positions (the std::swap that orders the two indices is rendered by
min/max). -/
def markedReadings (hs : HandlerState) (beginCursorIndex : Nat) :
    List String :=
  let fromIndex := min beginCursorIndex hs.cursor
  let toIndex := max beginCursorIndex hs.cursor
  (hs.readings.drop fromIndex).take (toIndex - fromIndex)

/-- KeyHandler::buildMarkingState, translated from the source (the
std::swap that orders the from/to composed strings is rendered by
min/max on the two cursor positions). -/
def buildMarkingState (lm : LM) (hs : HandlerState)
    (beginCursorIndex : Nat) : MarkingS :=
  let toComposed := getComposedString hs hs.cursor
  let composedStringCursorIndex := toComposed.head.length
  let composed := toComposed.head ++ toComposed.tail
  let lower := getComposedString hs (min beginCursorIndex hs.cursor)
  let upper := getComposedString hs (max beginCursorIndex hs.cursor)
  let head := lower.head
  let marked := (upper.head.toList.drop lower.head.length).asString
  let tail := upper.tail
  let readings := markedReadings hs beginCursorIndex
  let readingValue := String.intercalate "-" readings
  let readingUiText := String.intercalate " " readings
  let validation :=
    if readings.length < kMinValidMarkingReadingCount then
      (false, toString kMinValidMarkingReadingCount ++ " syllables required")
    else if kMaxValidMarkingReadingCount < readings.length then
      (false, toString kMaxValidMarkingReadingCount ++ " syllables maximum")
    else if MarkedPhraseExists lm readingValue marked then
      (false, "phrase already exists")
    else
      (true, "press Enter to add the phrase")
  { composingBuffer := composed
    cursorIndex := composedStringCursorIndex
    tooltip := "Marked: " ++ marked ++ ", syllables: " ++ readingUiText ++
      ", " ++ validation.2
    markStartGridCursorIndex := beginCursorIndex
    head := head
    markedText := marked
    tail := tail
    reading := readingValue
    acceptable := validation.1 }

/-- The cursor-advance scan of KeyHandler::pinNode when
moveCursorAfterSelection is set: accumulate walked spans until the pinned
cursor index is reached. -/
def nextPositionAfter : List NodeAnchor → Nat → Nat → Nat
  | [], _, acc => acc
  | anchor :: rest, cursorIndex, acc =>
      if cursorIndex ≤ acc then acc
      else nextPositionAfter rest cursorIndex (acc + anchor.spanningLength)

/-- KeyHandler::pinNode, translated from the source: pin the candidate at
the actual candidate cursor, record an override observation only when the
pinned node's score for the candidate exceeds the no-override threshold,
walk, and optionally advance the cursor past the pinned position. -/
def pinNode (env : GramEnv) (candidate : String)
    (hs : HandlerState) : HandlerState × List GridOp :=
  let cursorIndex := actualCandidateCursorIndex hs
  let fixed := fixNodeSelectedCandidate hs.gridNodes cursorIndex candidate
  let hs2 := { hs with gridNodes := fixed.2 }
  let score :=
    match fixed.1 with
    | some a => a.node.scoreForCandidate candidate
    | none => 0
  let trace :=
    GridOp.fixNode cursorIndex candidate ::
      (if kNoOverrideThreshold < score then
        [GridOp.observe cursorIndex candidate]
      else [])
  let hs3 := walk env hs2
  let hs4 :=
    if hs3.moveCursorAfterSelection then
      let nextPosition := nextPositionAfter hs3.walkedNodes cursorIndex 0
      if nextPosition ≤ hs3.readings.length then
        { hs3 with cursor := nextPosition }
      else hs3
    else hs3
  (hs4, trace)

/-- A result that lets the key pass through: nothing emitted, nothing
changed. -/
def passThrough (hs : HandlerState) : HandleResult :=
  { absorbed := false, emitted := [], errRaised := false
    afterState := hs, trace := [] }

/-- KeyHandler::handleCursorKeys, translated from the source. -/
def handleCursorKeys (lm : LM) (layout : BopomofoLayout) (key : Key)
    (state : InputState) (hs : HandlerState) : HandleResult :=
  let isInputting := match state with | .inputting _ => true | _ => false
  let isMarking := match state with | .marking _ => true | _ => false
  if !isInputting && !isMarking then passThrough hs
  else
  let markBeginCursorIndex :=
    match state with
    | .marking m => m.markStartGridCursorIndex
    | _ => hs.cursor
  if !hs.reading.isEmpty then
    { absorbed := true
      emitted := [.inputting (buildInputtingState layout hs)]
      errRaised := true, afterState := hs, trace := [] }
  else
  let moved :=
    match key.sym with
    | .left =>
        if 0 < hs.cursor then (true, { hs with cursor := hs.cursor - 1 })
        else (false, hs)
    | .right =>
        if hs.cursor < hs.readings.length then
          (true, { hs with cursor := hs.cursor + 1 })
        else (false, hs)
    | .home => (true, { hs with cursor := 0 })
    | .endKey => (true, { hs with cursor := hs.readings.length })
    | _ => (false, hs)
  let isValidMove := moved.1
  let hs2 := moved.2
  let emitted :=
    if key.shift && hs2.cursor != markBeginCursorIndex then
      [InputState.marking (buildMarkingState lm hs2 markBeginCursorIndex)]
    else
      [InputState.inputting (buildInputtingState layout hs2)]
  { absorbed := true
    emitted := emitted
    errRaised := !isValidMove
    afterState := hs2
    trace := [] }

/-- KeyHandler::handleDeleteKeys, translated from the source. -/
def handleDeleteKeys (env : GramEnv) (layout : BopomofoLayout) (key : Key)
    (state : InputState) (hs : HandlerState) : HandleResult :=
  if !state.isNotEmpty then passThrough hs
  else
  if hs.reading.isEmpty then
    if key.checkSym .backspace && decide (0 < hs.cursor) then
      let hs2 := walk env (deleteReadingBeforeCursor env hs)
      { absorbed := true
        emitted :=
          [if hs2.reading.isEmpty && hs2.readings.length == 0 then
            InputState.emptyIgnoringPrevious
          else InputState.inputting (buildInputtingState layout hs2)]
        errRaised := false, afterState := hs2, trace := [] }
    else if key.checkSym .deleteKey &&
        decide (hs.cursor < hs.readings.length) then
      let hs2 := walk env (deleteReadingAfterCursor env hs)
      { absorbed := true
        emitted :=
          [if hs2.reading.isEmpty && hs2.readings.length == 0 then
            InputState.emptyIgnoringPrevious
          else InputState.inputting (buildInputtingState layout hs2)]
        errRaised := false, afterState := hs2, trace := [] }
    else
      { absorbed := true
        emitted := [.inputting (buildInputtingState layout hs)]
        errRaised := true, afterState := hs, trace := [] }
  else
    if key.checkSym .backspace then
      let hs2 := { hs with reading := hs.reading.dropLast }
      { absorbed := true
        emitted :=
          [if hs2.reading.isEmpty && hs2.readings.length == 0 then
            InputState.emptyIgnoringPrevious
          else InputState.inputting (buildInputtingState layout hs2)]
        errRaised := false, afterState := hs2, trace := [] }
    else
      { absorbed := true
        emitted :=
          [if hs.reading.isEmpty && hs.readings.length == 0 then
            InputState.emptyIgnoringPrevious
          else InputState.inputting (buildInputtingState layout hs)]
        errRaised := true, afterState := hs, trace := [] }

/-- KeyHandler::handlePunctuation, translated from the source; returns
none when the synthetic punctuation key has no unigrams, letting handle
fall through to the next lookup. -/
def handlePunctuationKey (env : GramEnv) (layout : BopomofoLayout)
    (lm : LM) (punctuationUnigramKey : String)
    (hs : HandlerState) : Option HandleResult :=
  if !hasUnigramsForKey lm punctuationUnigramKey then none
  else if !hs.reading.isEmpty then
    some { absorbed := true
           emitted := [.inputting (buildInputtingState layout hs)]
           errRaised := true, afterState := hs, trace := [] }
  else
    let hs2 := insertReadingAtCursor env punctuationUnigramKey hs
    let popped := popEvictedTextAndWalk env hs2
    let inputtingState := buildInputtingState layout popped.2
    some { absorbed := true
           emitted :=
             [.inputting { inputtingState with evictedText := popped.1 }]
           errRaised := false, afterState := popped.2, trace := [] }

/-- KeyHandler::handle, translated from the source: the branch order and
the mutation of the reading buffer mirror the C++ control flow. -/
def handle (env : GramEnv) (layout : BopomofoLayout) (lm : LM) (key : Key)
    (state : InputState) (hs : HandlerState) : HandleResult :=
  let asciiChar := key.ascii.getD (Char.ofNat 0)
  let validKey := layout.isValidKey asciiChar
  let hs1 :=
    if validKey then { hs with reading := hs.reading ++ [asciiChar] }
    else hs
  if validKey && !layout.hasToneMarker hs1.reading then
    { absorbed := true
      emitted := [.inputting (buildInputtingState layout hs1)]
      errRaised := false, afterState := hs1, trace := [] }
  else
  let shouldComposeReading :=
    layout.hasToneMarker hs1.reading ||
      (!hs1.reading.isEmpty && key.checkSym .space)
  if shouldComposeReading then
    let syllable := layout.syllable hs1.reading
    let hs2 := { hs1 with reading := [] }
    if !hasUnigramsForKey lm syllable then
      { absorbed := true
        emitted := [.inputting (buildInputtingState layout hs2)]
        errRaised := true, afterState := hs2, trace := [] }
    else
      let hs3 := insertReadingAtCursor env syllable hs2
      let popped := popEvictedTextAndWalk env hs3
      let evictedText := popped.1
      let hs4 := popped.2
      let overrideValue := env.suggest hs4.walkedNodes hs4.cursor
      let biased :=
        if !overrideValue.isEmpty then
          let cursorIndex := actualCandidateCursorIndex hs4
          let nodes := nodesCrossingOrEndingAt hs4.gridNodes cursorIndex
          let highestScore := FindHighestScore nodes kEpsilon
          (overrideNodeScoreForSelectedCandidate cursorIndex overrideValue
             highestScore hs4,
           [GridOp.overrideScore cursorIndex overrideValue highestScore])
        else (hs4, [])
      let inputtingState := buildInputtingState layout biased.1
      { absorbed := true
        emitted :=
          [.inputting { inputtingState with evictedText := evictedText }]
        errRaised := false, afterState := biased.1, trace := biased.2 }
  else
  if key.checkSym .space && state.isNotEmpty && hs1.reading.isEmpty then
    let notEmptyData := state.notEmptyData.getD ("", 0)
    { absorbed := true
      emitted := [.choosingCandidate
        (buildChoosingCandidateState hs1 notEmptyData.1 notEmptyData.2)]
      errRaised := false, afterState := hs1, trace := [] }
  else
  if key.checkSym .escape then
    if !state.isNotEmpty then passThrough hs1
    else if !hs1.reading.isEmpty then
      let hs2 := { hs1 with reading := [] }
      { absorbed := true
        emitted :=
          [if hs2.readings.length == 0 then InputState.empty
           else InputState.inputting (buildInputtingState layout hs2)]
        errRaised := false, afterState := hs2, trace := [] }
    else
      { absorbed := true
        emitted := [.inputting (buildInputtingState layout hs1)]
        errRaised := false, afterState := hs1, trace := [] }
  else
  if key.sym == .left || key.sym == .right || key.sym == .home ||
      key.sym == .endKey then
    handleCursorKeys lm layout key state hs1
  else
  if (key.sym == .backspace || key.sym == .deleteKey) && !key.shift then
    handleDeleteKeys env layout key state hs1
  else
  if key.checkSym .enter then
    if !state.isNotEmpty then passThrough hs1
    else if !hs1.reading.isEmpty then
      { absorbed := true
        emitted := [.inputting (buildInputtingState layout hs1)]
        errRaised := true, afterState := hs1, trace := [] }
    else
      match state with
      | .marking m =>
          if m.acceptable then
            { absorbed := true
              emitted := [.inputting (buildInputtingState layout hs1)]
              errRaised := false, afterState := hs1
              trace := [.addUserPhrase m.reading m.markedText] }
          else
            { absorbed := true
              emitted := [.marking
                (buildMarkingState lm hs1 m.markStartGridCursorIndex)]
              errRaised := true, afterState := hs1, trace := [] }
      | _ =>
          let inputtingState := buildInputtingState layout hs1
          { absorbed := true
            emitted := [.committing inputtingState.composingBuffer]
            errRaised := false
            afterState :=
              { hs1 with
                reading := [], readings := [], cursor := 0
                gridNodes := [], walkedNodes := [] }
            trace := [] }
  else
  if key.checkSym .grave && hasUnigramsForKey lm "_punctuation_list" then
    if hs1.reading.isEmpty then
      let hs2 := insertReadingAtCursor env "_punctuation_list" hs1
      let popped := popEvictedTextAndWalk env hs2
      let inputtingState := buildInputtingState layout popped.2
      let inputtingState :=
        { inputtingState with evictedText := popped.1 }
      { absorbed := true
        emitted :=
          [.inputting inputtingState,
           .choosingCandidate
             (buildChoosingCandidateState popped.2
               inputtingState.composingBuffer inputtingState.cursorIndex)]
        errRaised := false, afterState := popped.2, trace := [] }
    else
      { absorbed := true, emitted := [], errRaised := true
        afterState := hs1, trace := [] }
  else
  if asciiChar != Char.ofNat 0 then
    let layoutKey :=
      "_punctuation_" ++ layout.name ++ "_" ++ String.mk [asciiChar]
    match handlePunctuationKey env layout lm layoutKey hs1 with
    | some r => r
    | none =>
        match handlePunctuationKey env layout lm
            ("_punctuation_" ++ String.mk [asciiChar]) hs1 with
        | some r => r
        | none =>
            if state.isNotEmpty then
              { absorbed := true
                emitted := [.inputting (buildInputtingState layout hs1)]
                errRaised := true, afterState := hs1, trace := [] }
            else passThrough hs1
  else
  if state.isNotEmpty then
    { absorbed := true
      emitted := [.inputting (buildInputtingState layout hs1)]
      errRaised := true, afterState := hs1, trace := [] }
  else passThrough hs1

/-- The grid/walk outcome of composing a reading completed by the key
character c: the reading buffer is cleared, the syllable is inserted at
the cursor, and overflow eviction plus the walk run.  This names the
intermediate state of the compose branch of handle so that theorems can
speak about it. -/
def composeInsertOutcome (env : GramEnv) (layout : BopomofoLayout)
    (hs : HandlerState) (c : Char) : String × HandlerState :=
  let hs1 := { hs with reading := hs.reading ++ [c] }
  let hs2 := { hs1 with reading := [] }
  popEvictedTextAndWalk env
    (insertReadingAtCursor env (layout.syllable hs1.reading) hs2)

/-- The genuine maximum of the highest unigram scores of a list of
anchors (0 for an empty list): the quantity the specification calls the
highest unigram score among the nodes. -/
def maxHighestUnigramScore (anchors : List NodeAnchor) : ℚ :=
  match anchors.map (fun a => a.node.highestUnigramScore) with
  | [] => 0
  | x :: xs => xs.foldl max x

/-- Following the claim's words (not the source): the candidate list with
the anchors stable-sorted by descending spanning length instead of by
descending reading-key length. -/
def spanSortedCandidates (hs : HandlerState) : List String :=
  let anchoredNodes :=
    nodesCrossingOrEndingAt hs.gridNodes (actualCandidateCursorIndex hs)
  let sorted := List.insertionSort
    (fun a b : NodeAnchor => b.spanningLength ≤ a.spanningLength)
    anchoredNodes
  sorted.foldl
    (fun acc a => acc ++ a.node.unigrams.map (fun u => u.value)) []

/-- A concrete keyboard layout for witnesses: the key a is a plain
component, the key 3 is a tone marker, and the composed forms are the raw
key strings. -/
def demoLayout : BopomofoLayout :=
  { name := "Standard"
    isValidKey := fun c => c == 'a' || c == '3'
    hasToneMarker := fun r => r.contains '3'
    syllable := fun r => String.mk r
    composedString := fun r => String.mk r }

/-- A concrete environment for witnesses: no grid nodes are ever built,
the walk returns the grid nodes as they are, and no suggestion is ever
made. -/
def demoEnv : GramEnv :=
  { buildNodes := fun _ => []
    walkFn := fun nodes => nodes
    suggest := fun _ _ => "" }

/-- A concrete language model for witnesses: only the syllable a3 has an
entry. -/
def demoLM : LM := fun key =>
  if key == "a3" then [{ value := "A", score := -1 }] else []

/-- A handler state with everything empty. -/
def hsEmptyAll : HandlerState :=
  { reading := [], readings := [], cursor := 0
    gridNodes := [], walkedNodes := [] }

/-- A single-candidate node used by several witnesses. -/
def demoNodeA : Node :=
  { key := "a", unigrams := [{ value := "A", score := -1 }] }

/-- C1: For every grid state where inserting a reading makes the grid
width exceed the composing cap of 10 slots and the previous walked path
is non-empty, popEvictedTextAndWalk removes exactly the leading walked
node's full span from the head of the grid, returns that node's composed
value as the evicted text, and the post-walk grid width is at most 10;
when the width does not exceed 10, it removes nothing and returns the
empty string. -/
theorem popEvictedTextAndWalkFreesOverflow (env : GramEnv)
    (hs : HandlerState) (anchor : NodeAnchor) (rest : List NodeAnchor) :
    (kComposingBufferSize < hs.readings.length →
      hs.readings.length ≤ kComposingBufferSize + 1 →
      hs.walkedNodes = anchor :: rest →
      1 ≤ anchor.spanningLength →
      (popEvictedTextAndWalk env hs).1 = anchor.node.currentValue ∧
      (popEvictedTextAndWalk env hs).2.readings =
        hs.readings.drop anchor.spanningLength ∧
      (popEvictedTextAndWalk env hs).2.readings.length ≤
        kComposingBufferSize) ∧
    (hs.readings.length ≤ kComposingBufferSize →
      (popEvictedTextAndWalk env hs).1 = "" ∧
      (popEvictedTextAndWalk env hs).2.readings = hs.readings) := by
  constructor
  · intro hgt hle hw hspan
    simp only [popEvictedTextAndWalk, hw, if_pos hgt, walk,
      removeHeadReadings, List.length_drop, true_and]
    simp only [kComposingBufferSize] at hle ⊢
    omega
  · intro hle
    have hcond : ¬ kComposingBufferSize < hs.readings.length := by omega
    simp only [popEvictedTextAndWalk, if_neg hcond, walk]
    exact ⟨trivial, trivial⟩

/-- Witness for C1: a grid of width 11 with a leading walked node of span
1 evicts that node's value and ends at width 10. -/
theorem popEvictedTextAndWalkFreesOverflowWitness :
    (popEvictedTextAndWalk demoEnv
      { reading := [],
        readings := ["a","a","a","a","a","a","a","a","a","a","a"],
        cursor := 11, gridNodes := [],
        walkedNodes := [⟨demoNodeA, 0, 1⟩] }).1 = "A" ∧
    (popEvictedTextAndWalk demoEnv
      { reading := [],
        readings := ["a","a","a","a","a","a","a","a","a","a","a"],
        cursor := 11, gridNodes := [],
        walkedNodes := [⟨demoNodeA, 0, 1⟩] }).2.readings.length ≤
      kComposingBufferSize := by
  have h := (popEvictedTextAndWalkFreesOverflow demoEnv
    { reading := [],
      readings := ["a","a","a","a","a","a","a","a","a","a","a"],
      cursor := 11, gridNodes := [],
      walkedNodes := [⟨demoNodeA, 0, 1⟩] } ⟨demoNodeA, 0, 1⟩ []).1
    (by decide) (by decide) rfl (by decide)
  exact ⟨by rw [h.1]; rfl, h.2.2⟩

/-- C2: A marking over exactly 2 to 6 readings whose (reading key,
marked text) pair is not already in the language model is acceptable; a
marking over fewer than 2 or more than 6 readings is never acceptable,
regardless of phrase existence. -/
theorem markingValidityRequiresTwoToSixNovelReadings (lm : LM)
    (hs : HandlerState) (beginCursorIndex : Nat) :
    (kMinValidMarkingReadingCount ≤
        (markedReadings hs beginCursorIndex).length →
      (markedReadings hs beginCursorIndex).length ≤
        kMaxValidMarkingReadingCount →
      MarkedPhraseExists lm
        (buildMarkingState lm hs beginCursorIndex).reading
        (buildMarkingState lm hs beginCursorIndex).markedText = false →
      (buildMarkingState lm hs beginCursorIndex).acceptable = true) ∧
    ((markedReadings hs beginCursorIndex).length <
        kMinValidMarkingReadingCount ∨
      kMaxValidMarkingReadingCount <
        (markedReadings hs beginCursorIndex).length →
      (buildMarkingState lm hs beginCursorIndex).acceptable = false) := by
  constructor
  · intro h1 h2 h3
    simp only [kMinValidMarkingReadingCount,
      kMaxValidMarkingReadingCount] at h1 h2
    simp only [buildMarkingState, String.toList, kMinValidMarkingReadingCount,
      kMaxValidMarkingReadingCount] at h3 ⊢
    rw [if_neg (by omega), if_neg (by omega), if_neg (by simp [h3])]
  · intro h
    rcases h with h | h <;>
      simp only [kMinValidMarkingReadingCount,
        kMaxValidMarkingReadingCount] at h <;>
      simp only [buildMarkingState, kMinValidMarkingReadingCount,
        kMaxValidMarkingReadingCount]
    · rw [if_pos h]
    · rw [if_neg (by omega), if_pos h]

/-- Witness for C2: a 2-reading marking of an unknown phrase is
acceptable; a 1-reading marking is not. -/
theorem markingValidityWitness :
    (buildMarkingState demoLM
      { reading := [], readings := ["a","a"], cursor := 2,
        gridNodes := [],
        walkedNodes := [⟨demoNodeA, 0, 1⟩, ⟨demoNodeA, 1, 1⟩] }
      0).acceptable = true ∧
    (buildMarkingState demoLM
      { reading := [], readings := ["a"], cursor := 1,
        gridNodes := [], walkedNodes := [⟨demoNodeA, 0, 1⟩] }
      0).acceptable = false := by
  refine ⟨(markingValidityRequiresTwoToSixNovelReadings demoLM
      { reading := [], readings := ["a","a"], cursor := 2,
        gridNodes := [],
        walkedNodes := [⟨demoNodeA, 0, 1⟩, ⟨demoNodeA, 1, 1⟩] } 0).1
      (by decide) (by decide) (by decide),
    (markingValidityRequiresTwoToSixNovelReadings demoLM
      { reading := [], readings := ["a"], cursor := 1,
        gridNodes := [], walkedNodes := [⟨demoNodeA, 0, 1⟩] } 0).2
      (by decide)⟩

/-- C4: Handling the key that completes a syllable with no unigrams in
the language model raises the error signal, leaves the grid (readings,
cursor, nodes, walked path) untouched, and republishes the Inputting
state built from the unchanged grid, the pending reading being silently
discarded. -/
theorem unknownSyllableRejectedWithError (env : GramEnv)
    (layout : BopomofoLayout) (lm : LM) (key : Key) (state : InputState)
    (hs : HandlerState) (c : Char)
    (hascii : key.ascii = some c)
    (hvalid : layout.isValidKey c = true)
    (htone : layout.hasToneMarker (hs.reading ++ [c]) = true)
    (hlm : lm (layout.syllable (hs.reading ++ [c])) = []) :
    handle env layout lm key state hs =
      { absorbed := true
        emitted := [.inputting
          (buildInputtingState layout { hs with reading := [] })]
        errRaised := true
        afterState := { hs with reading := [] }
        trace := [] } := by
  simp only [handle, hascii, Option.getD_some, hvalid, htone,
    hasUnigramsForKey, hlm, List.isEmpty_nil, Bool.not_true, Bool.true_and,
    Bool.and_false, Bool.false_and, Bool.true_or, Bool.not_false,
    if_true, if_false, ite_true, ite_false]
  rfl

/-- Witness for C4: the tone key 3 alone forms the syllable 3, absent
from the demo model; the key is absorbed with an error and an unchanged
empty Inputting state. -/
theorem unknownSyllableRejectedWithErrorWitness :
    handle demoEnv demoLayout demoLM ⟨.other, false, some '3'⟩ .empty
        hsEmptyAll =
      { absorbed := true
        emitted := [.inputting
          (buildInputtingState demoLayout { hsEmptyAll with reading := [] })]
        errRaised := true
        afterState := { hsEmptyAll with reading := [] }
        trace := [] } :=
  unknownSyllableRejectedWithError demoEnv demoLayout demoLM
    ⟨.other, false, some '3'⟩ .empty hsEmptyAll '3' rfl (by decide)
    (by decide) (by decide)

/-- C5: Escape with a non-empty reading clears the reading and yields
Empty when the grid is empty, otherwise an Inputting rebuilt from the
grid; Escape with an empty reading republishes the Inputting state
unchanged; Escape from a pure Empty state is not absorbed. -/
theorem escapeKeyBehavior (env : GramEnv) (layout : BopomofoLayout)
    (lm : LM) (state : InputState) (hs : HandlerState)
    (hnul : layout.isValidKey (Char.ofNat 0) = false)
    (htone : layout.hasToneMarker hs.reading = false) :
    (state.isNotEmpty = true → hs.reading.isEmpty = false →
      handle env layout lm ⟨.escape, false, none⟩ state hs =
        { absorbed := true
          emitted := [if hs.readings.length == 0 then InputState.empty
            else InputState.inputting
              (buildInputtingState layout { hs with reading := [] })]
          errRaised := false
          afterState := { hs with reading := [] }
          trace := [] }) ∧
    (state.isNotEmpty = true → hs.reading.isEmpty = true →
      handle env layout lm ⟨.escape, false, none⟩ state hs =
        { absorbed := true
          emitted := [.inputting (buildInputtingState layout hs)]
          errRaised := false
          afterState := hs
          trace := [] }) ∧
    (state = .empty →
      handle env layout lm ⟨.escape, false, none⟩ state hs =
        passThrough hs) := by
  refine ⟨?_, ?_, ?_⟩
  · intro hne hread
    simp only [handle, Option.getD_none, hnul, htone, hne, hread,
      Key.checkSym, Bool.and_eq_true, Bool.or_eq_true, beq_iff_eq,
      reduceCtorEq, Bool.false_eq_true, Bool.not_true, Bool.not_false,
      Bool.true_and, Bool.and_false, Bool.false_and, Bool.and_true,
      Bool.false_or, Bool.true_or, Bool.or_false, false_and, and_false,
      false_or, or_false, ite_false, ite_true, if_true, if_false]
  · intro hne hread
    simp only [handle, Option.getD_none, hnul, htone, hne, hread,
      Key.checkSym, Bool.and_eq_true, Bool.or_eq_true, beq_iff_eq,
      reduceCtorEq, Bool.false_eq_true, Bool.not_true, Bool.not_false,
      Bool.true_and, Bool.and_false, Bool.false_and, Bool.and_true,
      Bool.false_or, Bool.true_or, Bool.or_false, false_and, and_false,
      false_or, or_false, ite_false, ite_true, if_true, if_false]
  · intro hempty
    subst hempty
    simp only [handle, Option.getD_none, hnul, htone,
      InputState.isNotEmpty, InputState.notEmptyData,
      Key.checkSym, Bool.and_eq_true, Bool.or_eq_true, beq_iff_eq,
      reduceCtorEq, Bool.false_eq_true, Bool.not_true, Bool.not_false,
      Bool.true_and, Bool.and_false, Bool.false_and, Bool.and_true,
      Bool.false_or, Bool.true_or, Bool.or_false, false_and, and_false,
      false_or, or_false, ite_false, ite_true, if_true, if_false]
    rfl

/-- Witness for C5: Escape with the pending reading a over an empty grid
ends in the Empty state; Escape from a pure Empty state is not
absorbed. -/
theorem escapeKeyBehaviorWitness :
    handle demoEnv demoLayout demoLM ⟨.escape, false, none⟩
        (.inputting { composingBuffer := "a", cursorIndex := 1 })
        { hsEmptyAll with reading := ['a'] } =
      { absorbed := true
        emitted := [InputState.empty]
        errRaised := false
        afterState := hsEmptyAll
        trace := [] } ∧
    handle demoEnv demoLayout demoLM ⟨.escape, false, none⟩ .empty
        hsEmptyAll = passThrough hsEmptyAll := by
  have h := escapeKeyBehavior demoEnv demoLayout demoLM
    (.inputting { composingBuffer := "a", cursorIndex := 1 })
    { hsEmptyAll with reading := ['a'] } (by decide) (by decide)
  have h2 := escapeKeyBehavior demoEnv demoLayout demoLM .empty hsEmptyAll
    (by decide) (by decide)
  refine ⟨?_, h2.2.2 rfl⟩
  rw [h.1 (by decide) (by decide)]
  decide

/-- C10: Enter from a non-empty state while a phonetic reading is still
in progress raises the error signal and republishes an Inputting state:
no Committing state is produced, no user phrase is added, and the grid
and reading are left untouched. -/
theorem enterWithActiveReadingRaisesError (env : GramEnv)
    (layout : BopomofoLayout) (lm : LM) (state : InputState)
    (hs : HandlerState)
    (hnul : layout.isValidKey (Char.ofNat 0) = false)
    (htone : layout.hasToneMarker hs.reading = false)
    (hne : state.isNotEmpty = true)
    (hread : hs.reading.isEmpty = false) :
    handle env layout lm ⟨.enter, false, none⟩ state hs =
      { absorbed := true
        emitted := [.inputting (buildInputtingState layout hs)]
        errRaised := true
        afterState := hs
        trace := [] } := by
  simp only [handle, Option.getD_none, hnul, htone, hne, hread,
    Key.checkSym, Bool.and_eq_true, Bool.or_eq_true, beq_iff_eq,
    reduceCtorEq, Bool.false_eq_true, Bool.not_true, Bool.not_false,
    Bool.true_and, Bool.and_false, Bool.false_and, Bool.and_true,
    Bool.false_or, Bool.true_or, Bool.or_false, false_and, and_false,
    false_or, or_false, ite_false, ite_true, if_true, if_false]

/-- Witness for C10: Enter with the pending reading a keeps the handler
state, raises the error and emits one Inputting state. -/
theorem enterWithActiveReadingRaisesErrorWitness :
    handle demoEnv demoLayout demoLM ⟨.enter, false, none⟩
        (.inputting { composingBuffer := "a", cursorIndex := 1 })
        { hsEmptyAll with reading := ['a'] } =
      { absorbed := true
        emitted := [.inputting (buildInputtingState demoLayout
          { hsEmptyAll with reading := ['a'] })]
        errRaised := true
        afterState := { hsEmptyAll with reading := ['a'] }
        trace := [] } :=
  enterWithActiveReadingRaisesError demoEnv demoLayout demoLM
    (.inputting { composingBuffer := "a", cursorIndex := 1 })
    { hsEmptyAll with reading := ['a'] } (by decide) (by decide)
    (by decide) (by decide)

/-- C7: When a candidate is pinned, the pin side effect always happens,
and an override observation is recorded if and only if the pinned node's
score for the chosen value strictly exceeds the -8.0 floor. -/
theorem pinNodeObservesOnlyAboveThreshold (env : GramEnv)
    (candidate : String) (hs : HandlerState) (anchor : NodeAnchor)
    (hfind : (nodesCrossingOrEndingAt hs.gridNodes
        (actualCandidateCursorIndex hs)).find?
        (fun a => a.node.unigrams.any (fun u => u.value == candidate)) =
      some anchor) :
    GridOp.fixNode (actualCandidateCursorIndex hs) candidate ∈
      (pinNode env candidate hs).2 ∧
    (GridOp.observe (actualCandidateCursorIndex hs) candidate ∈
        (pinNode env candidate hs).2 ↔
      kNoOverrideThreshold < anchor.node.scoreForCandidate candidate) := by
  simp only [pinNode, fixNodeSelectedCandidate, hfind]
  refine ⟨List.mem_cons_self _ _, ?_⟩
  by_cases hlt :
      kNoOverrideThreshold < anchor.node.scoreForCandidate candidate
  · simp [hlt]
  · simp [hlt]

/-- Witness for C7: pinning the candidate A with score -1 above the -8
floor records an observation and pins the node. -/
theorem pinNodeObservesOnlyAboveThresholdWitness :
    GridOp.fixNode 1 "A" ∈ (pinNode demoEnv "A"
      { reading := [], readings := ["a"], cursor := 1,
        gridNodes := [⟨demoNodeA, 0, 1⟩], walkedNodes := [] }).2 ∧
    GridOp.observe 1 "A" ∈ (pinNode demoEnv "A"
      { reading := [], readings := ["a"], cursor := 1,
        gridNodes := [⟨demoNodeA, 0, 1⟩], walkedNodes := [] }).2 := by
  have h := pinNodeObservesOnlyAboveThreshold demoEnv "A"
    { reading := [], readings := ["a"], cursor := 1,
      gridNodes := [⟨demoNodeA, 0, 1⟩], walkedNodes := [] }
    ⟨demoNodeA, 0, 1⟩ (by decide)
  exact ⟨h.1, h.2.mpr (by decide)⟩

/-- C8: From Inputting or Marking with an empty reading, Left at cursor 0
and Right at cursor = grid length are invalid boundary moves that raise
the error and leave the handler state (in particular the grid cursor)
unchanged; Home and End always succeed, setting the cursor to 0 and to
the grid length; from any other state the cursor keys are not
absorbed. -/
theorem cursorKeyBoundaryBehavior (lm : LM) (layout : BopomofoLayout)
    (key : Key) (state : InputState) (hs : HandlerState)
    (hread : hs.reading.isEmpty = true) :
    ((∃ s, state = .inputting s) ∨ (∃ m, state = .marking m) →
      (key.sym = .left → hs.cursor = 0 →
        (handleCursorKeys lm layout key state hs).errRaised = true ∧
        (handleCursorKeys lm layout key state hs).afterState = hs ∧
        (handleCursorKeys lm layout key state hs).absorbed = true) ∧
      (key.sym = .right → hs.cursor = hs.readings.length →
        (handleCursorKeys lm layout key state hs).errRaised = true ∧
        (handleCursorKeys lm layout key state hs).afterState = hs ∧
        (handleCursorKeys lm layout key state hs).absorbed = true) ∧
      (key.sym = .home →
        (handleCursorKeys lm layout key state hs).errRaised = false ∧
        (handleCursorKeys lm layout key state hs).afterState.cursor = 0 ∧
        (handleCursorKeys lm layout key state hs).absorbed = true) ∧
      (key.sym = .endKey →
        (handleCursorKeys lm layout key state hs).errRaised = false ∧
        (handleCursorKeys lm layout key state hs).afterState.cursor =
          hs.readings.length ∧
        (handleCursorKeys lm layout key state hs).absorbed = true)) ∧
    ((∀ s, state ≠ .inputting s) → (∀ m, state ≠ .marking m) →
      handleCursorKeys lm layout key state hs = passThrough hs) := by
  constructor
  · intro hstate
    obtain ⟨s, rfl⟩ | ⟨m, rfl⟩ := hstate <;>
      refine ⟨?_, ?_, ?_, ?_⟩ <;> intro hsym <;>
        first
        | (intro hcur
           simp [handleCursorKeys, hread, hsym, hcur])
        | simp [handleCursorKeys, hread, hsym]
  · intro hnotI hnotM
    cases state with
    | inputting s => exact absurd rfl (hnotI s)
    | marking m => exact absurd rfl (hnotM m)
    | empty => simp [handleCursorKeys]
    | emptyIgnoringPrevious => simp [handleCursorKeys]
    | committing t => simp [handleCursorKeys]
    | choosingCandidate s => simp [handleCursorKeys]

/-- Witness for C8: Left at cursor 0 over a one-slot grid raises the
error and keeps the state; End moves the cursor to the grid length; from
a ChoosingCandidate state the cursor key passes through. -/
theorem cursorKeyBoundaryBehaviorWitness :
    (handleCursorKeys demoLM demoLayout ⟨.left, false, none⟩
      (.inputting { composingBuffer := "a", cursorIndex := 1 })
      { reading := [], readings := ["a"], cursor := 0,
        gridNodes := [], walkedNodes := [⟨demoNodeA, 0, 1⟩] }).errRaised =
      true ∧
    (handleCursorKeys demoLM demoLayout ⟨.endKey, false, none⟩
      (.inputting { composingBuffer := "a", cursorIndex := 1 })
      { reading := [], readings := ["a"], cursor := 0,
        gridNodes := [], walkedNodes := [⟨demoNodeA, 0, 1⟩] }
      ).afterState.cursor = 1 ∧
    handleCursorKeys demoLM demoLayout ⟨.left, false, none⟩
      (.choosingCandidate
        { composingBuffer := "a", cursorIndex := 1, candidates := ["A"] })
      hsEmptyAll = passThrough hsEmptyAll := by
  have h1 := (cursorKeyBoundaryBehavior demoLM demoLayout
    ⟨.left, false, none⟩
    (.inputting { composingBuffer := "a", cursorIndex := 1 })
    { reading := [], readings := ["a"], cursor := 0,
      gridNodes := [], walkedNodes := [⟨demoNodeA, 0, 1⟩] }
    (by decide)).1 (Or.inl ⟨_, rfl⟩)
  have h2 := (cursorKeyBoundaryBehavior demoLM demoLayout
    ⟨.endKey, false, none⟩
    (.inputting { composingBuffer := "a", cursorIndex := 1 })
    { reading := [], readings := ["a"], cursor := 0,
      gridNodes := [], walkedNodes := [⟨demoNodeA, 0, 1⟩] }
    (by decide)).1 (Or.inl ⟨_, rfl⟩)
  have h3 := (cursorKeyBoundaryBehavior demoLM demoLayout
    ⟨.left, false, none⟩
    (.choosingCandidate
      { composingBuffer := "a", cursorIndex := 1, candidates := ["A"] })
    hsEmptyAll (by decide)).2
    (fun s h => by cases h) (fun m h => by cases h)
  exact ⟨(h1.1 rfl rfl).1, (h2.2.2.2 rfl).2.1, h3⟩

/-- Counterexample for C9 as stated: from a (reachable) Inputting state
whose grid and reading are both already empty, Delete is an invalid
boundary delete; the handler raises the error and emits an Inputting
state even though grid and reading are both empty afterwards, not
EmptyIgnoringPrevious as the claim requires. -/
theorem deleteKeysEmptyBoundaryCounterexample :
    (handleDeleteKeys demoEnv demoLayout ⟨.deleteKey, false, none⟩
      (.inputting { composingBuffer := "", cursorIndex := 0 })
      hsEmptyAll).afterState.reading = [] ∧
    (handleDeleteKeys demoEnv demoLayout ⟨.deleteKey, false, none⟩
      (.inputting { composingBuffer := "", cursorIndex := 0 })
      hsEmptyAll).afterState.readings = [] ∧
    (handleDeleteKeys demoEnv demoLayout ⟨.deleteKey, false, none⟩
      (.inputting { composingBuffer := "", cursorIndex := 0 })
      hsEmptyAll).errRaised = true ∧
    (handleDeleteKeys demoEnv demoLayout ⟨.deleteKey, false, none⟩
      (.inputting { composingBuffer := "", cursorIndex := 0 })
      hsEmptyAll).emitted =
      [.inputting { composingBuffer := "", cursorIndex := 0 }] ∧
    (handleDeleteKeys demoEnv demoLayout ⟨.deleteKey, false, none⟩
      (.inputting { composingBuffer := "", cursorIndex := 0 })
      hsEmptyAll).emitted ≠ [InputState.emptyIgnoringPrevious] := by
  refine ⟨rfl, rfl, rfl, by decide, by decide⟩

/-- C9 (amended): From a non-empty state, Backspace with an active
reading trims one key and Delete with an active reading raises the error
leaving everything unchanged; with an empty reading a valid Backspace or
Delete removes the slot adjacent to the cursor and re-walks the grid,
while a boundary delete raises the error; the emitted state is
EmptyIgnoringPrevious when reading and grid are both empty afterwards and
Inputting otherwise, except that after an invalid boundary delete the
emitted state is always Inputting; from a state that is not a non-empty
variant the key passes through. -/
theorem deleteKeysBehavior (env : GramEnv) (layout : BopomofoLayout)
    (state : InputState) (hs : HandlerState) :
    (state.isNotEmpty = true → hs.reading.isEmpty = false →
      handleDeleteKeys env layout ⟨.backspace, false, none⟩ state hs =
        { absorbed := true
          emitted := [if hs.reading.dropLast.isEmpty &&
              (hs.readings.length == 0) then
              InputState.emptyIgnoringPrevious
            else InputState.inputting (buildInputtingState layout
              { hs with reading := hs.reading.dropLast })]
          errRaised := false
          afterState := { hs with reading := hs.reading.dropLast }
          trace := [] }) ∧
    (state.isNotEmpty = true → hs.reading.isEmpty = false →
      handleDeleteKeys env layout ⟨.deleteKey, false, none⟩ state hs =
        { absorbed := true
          emitted := [.inputting (buildInputtingState layout hs)]
          errRaised := true
          afterState := hs
          trace := [] }) ∧
    (state.isNotEmpty = true → hs.reading.isEmpty = true →
      0 < hs.cursor →
      (handleDeleteKeys env layout ⟨.backspace, false, none⟩ state hs
        ).afterState.readings = hs.readings.eraseIdx (hs.cursor - 1) ∧
      (handleDeleteKeys env layout ⟨.backspace, false, none⟩ state hs
        ).afterState.cursor = hs.cursor - 1 ∧
      (handleDeleteKeys env layout ⟨.backspace, false, none⟩ state hs
        ).afterState.walkedNodes =
        env.walkFn (env.buildNodes (hs.readings.eraseIdx (hs.cursor - 1))) ∧
      (handleDeleteKeys env layout ⟨.backspace, false, none⟩ state hs
        ).errRaised = false ∧
      (handleDeleteKeys env layout ⟨.backspace, false, none⟩ state hs
        ).emitted =
        [if (hs.readings.eraseIdx (hs.cursor - 1)).length == 0 then
          InputState.emptyIgnoringPrevious
        else InputState.inputting (buildInputtingState layout
          (walk env (deleteReadingBeforeCursor env hs)))]) ∧
    (state.isNotEmpty = true → hs.reading.isEmpty = true →
      hs.cursor < hs.readings.length →
      (handleDeleteKeys env layout ⟨.deleteKey, false, none⟩ state hs
        ).afterState.readings = hs.readings.eraseIdx hs.cursor ∧
      (handleDeleteKeys env layout ⟨.deleteKey, false, none⟩ state hs
        ).afterState.cursor = hs.cursor ∧
      (handleDeleteKeys env layout ⟨.deleteKey, false, none⟩ state hs
        ).afterState.walkedNodes =
        env.walkFn (env.buildNodes (hs.readings.eraseIdx hs.cursor)) ∧
      (handleDeleteKeys env layout ⟨.deleteKey, false, none⟩ state hs
        ).errRaised = false ∧
      (handleDeleteKeys env layout ⟨.deleteKey, false, none⟩ state hs
        ).emitted =
        [if (hs.readings.eraseIdx hs.cursor).length == 0 then
          InputState.emptyIgnoringPrevious
        else InputState.inputting (buildInputtingState layout
          (walk env (deleteReadingAfterCursor env hs)))]) ∧
    (state.isNotEmpty = true → hs.reading.isEmpty = true →
      hs.cursor = 0 →
      handleDeleteKeys env layout ⟨.backspace, false, none⟩ state hs =
        { absorbed := true
          emitted := [.inputting (buildInputtingState layout hs)]
          errRaised := true
          afterState := hs
          trace := [] }) ∧
    (state.isNotEmpty = true → hs.reading.isEmpty = true →
      hs.readings.length ≤ hs.cursor →
      handleDeleteKeys env layout ⟨.deleteKey, false, none⟩ state hs =
        { absorbed := true
          emitted := [.inputting (buildInputtingState layout hs)]
          errRaised := true
          afterState := hs
          trace := [] }) ∧
    (state.isNotEmpty = false →
      ∀ k, handleDeleteKeys env layout k state hs = passThrough hs) := by
  refine ⟨?_, ?_, ?_, ?_, ?_, ?_, ?_⟩
  · intro hne hread
    simp [handleDeleteKeys, hne, hread, Key.checkSym]
  · intro hne hread
    simp [handleDeleteKeys, hne, hread, Key.checkSym]
  · intro hne hread hcur
    have hgone : hs.reading = [] := by
      cases h : hs.reading with
      | nil => rfl
      | cons a l => rw [h] at hread; cases hread
    simp [handleDeleteKeys, hne, hread, hcur, Key.checkSym, walk,
      deleteReadingBeforeCursor, hgone]
  · intro hne hread hcur
    have hgone : hs.reading = [] := by
      cases h : hs.reading with
      | nil => rfl
      | cons a l => rw [h] at hread; cases hread
    simp [handleDeleteKeys, hne, hread, hcur, Key.checkSym, walk,
      deleteReadingAfterCursor, hgone]
  · intro hne hread hcur
    simp [handleDeleteKeys, hne, hread, hcur, Key.checkSym]
  · intro hne hread hcur
    have hno : ¬ hs.cursor < hs.readings.length := by omega
    simp [handleDeleteKeys, hne, hread, hno, Key.checkSym]
  · intro hne k
    simp [handleDeleteKeys, hne, passThrough]

/-- A handler state with only the active reading a3. -/
def hsReadingA3 : HandlerState :=
  { reading := ['a', '3'], readings := [], cursor := 0
    gridNodes := [], walkedNodes := [] }

/-- A handler state with one grid slot and the cursor after it. -/
def hsOneSlot : HandlerState :=
  { reading := [], readings := ["a"], cursor := 1
    gridNodes := [], walkedNodes := [⟨demoNodeA, 0, 1⟩] }

/-- Witness for C9 (amended): Backspace with the active reading a3 trims
it to a; Delete with an active reading raises the error; Backspace on a
one-slot grid with the cursor at 1 removes the slot and, grid and reading
being empty afterwards, emits EmptyIgnoringPrevious. -/
theorem deleteKeysBehaviorWitness :
    handleDeleteKeys demoEnv demoLayout ⟨.backspace, false, none⟩
        (.inputting { composingBuffer := "a3", cursorIndex := 2 })
        hsReadingA3 =
      { absorbed := true
        emitted := [.inputting (buildInputtingState demoLayout
          { hsReadingA3 with reading := ['a'] })]
        errRaised := false
        afterState := { hsReadingA3 with reading := ['a'] }
        trace := [] } ∧
    (handleDeleteKeys demoEnv demoLayout ⟨.deleteKey, false, none⟩
      (.inputting { composingBuffer := "a3", cursorIndex := 2 })
      hsReadingA3).errRaised = true ∧
    (handleDeleteKeys demoEnv demoLayout ⟨.backspace, false, none⟩
      (.inputting { composingBuffer := "a", cursorIndex := 1 })
      hsOneSlot).emitted = [InputState.emptyIgnoringPrevious] := by
  refine ⟨((deleteKeysBehavior demoEnv demoLayout
      (.inputting { composingBuffer := "a3", cursorIndex := 2 })
      hsReadingA3).1 (by decide) (by decide)).trans (by decide), ?_, ?_⟩
  · rw [(deleteKeysBehavior demoEnv demoLayout
      (.inputting { composingBuffer := "a3", cursorIndex := 2 })
      hsReadingA3).2.1 (by decide) (by decide)]
  · have h3 := ((deleteKeysBehavior demoEnv demoLayout
      (.inputting { composingBuffer := "a", cursorIndex := 1 })
      hsOneSlot).2.2.1) (by decide) (by decide) (by decide)
    rw [h3.2.2.2.2]
    decide

/-- A two-reading node whose joined key aaaa-b is 6 bytes long. -/
def nodeSpan2 : Node :=
  { key := "aaaa-b", unigrams := [{ value := "V2", score := -1 }] }

/-- A three-reading node whose joined key b-c-d is only 5 bytes long. -/
def nodeSpan3 : Node :=
  { key := "b-c-d", unigrams := [{ value := "V3", score := -1 }] }

/-- A grid where the candidate cursor position 2 is crossed by the
two-reading node aaaa-b and the three-reading node b-c-d. -/
def hsSpanOrder : HandlerState :=
  { reading := [], readings := ["aaaa", "b", "c", "d"], cursor := 2
    gridNodes := [⟨nodeSpan2, 0, 2⟩, ⟨nodeSpan3, 1, 3⟩]
    walkedNodes := [] }

/-- Counterexample for C3 as stated: the source sorts by descending
reading-key length, not by descending span length.  At a position crossed
by a 2-reading node with the longer joined key aaaa-b and a 3-reading
node with the shorter joined key b-c-d, the 2-reading node's candidate
lists first, while a stable sort by descending span length would list the
3-reading node's candidate first. -/
theorem choosingCandidateSpanOrderCounterexample :
    (buildChoosingCandidateState hsSpanOrder "" 0).candidates =
      ["V2", "V3"] ∧
    spanSortedCandidates hsSpanOrder = ["V3", "V2"] ∧
    (buildChoosingCandidateState hsSpanOrder "" 0).candidates ≠
      spanSortedCandidates hsSpanOrder := by
  refine ⟨by decide, by decide, by decide⟩

/-- C3 (amended): The candidate list is the concatenation of the
candidate values of the nodes crossing or ending at the actual candidate
cursor position, the nodes stable-sorted by descending reading-key byte
length (which puts a 2-reading node ahead of a 1-reading node crossing
the same position, their keys sharing the common reading): the list is a
flattening of a permutation of the crossing nodes that is sorted by
non-increasing key length, any two crossing nodes already in that order
keep their relative order, and each node's own candidates are kept in
the language model's stored order. -/
theorem choosingCandidateOrderedByKeyLength (hs : HandlerState)
    (composingBuffer : String) (cursorIndex : Nat) :
    ∃ ns : List NodeAnchor,
      List.Perm ns (nodesCrossingOrEndingAt hs.gridNodes
        (actualCandidateCursorIndex hs)) ∧
      List.Sorted (fun a b : NodeAnchor =>
        b.node.key.utf8ByteSize ≤ a.node.key.utf8ByteSize) ns ∧
      (∀ a b : NodeAnchor,
        List.Sublist [a, b] (nodesCrossingOrEndingAt hs.gridNodes
          (actualCandidateCursorIndex hs)) →
        b.node.key.utf8ByteSize ≤ a.node.key.utf8ByteSize →
        List.Sublist [a, b] ns) ∧
      (buildChoosingCandidateState hs composingBuffer
          cursorIndex).candidates =
        ns.foldl
          (fun acc a => acc ++ a.node.unigrams.map (fun u => u.value))
          [] := by
  haveI : IsTotal NodeAnchor (fun a b : NodeAnchor =>
      b.node.key.utf8ByteSize ≤ a.node.key.utf8ByteSize) :=
    ⟨fun a b => Nat.le_total b.node.key.utf8ByteSize
      a.node.key.utf8ByteSize⟩
  haveI : IsTrans NodeAnchor (fun a b : NodeAnchor =>
      b.node.key.utf8ByteSize ≤ a.node.key.utf8ByteSize) :=
    ⟨fun _ _ _ hab hbc => le_trans hbc hab⟩
  refine ⟨List.insertionSort _ (nodesCrossingOrEndingAt hs.gridNodes
      (actualCandidateCursorIndex hs)),
    List.perm_insertionSort _ _, List.sorted_insertionSort _ _,
    fun a b hsub hr => List.pair_sublist_insertionSort hr hsub, rfl⟩

/-- An if on a strict comparison is the max of accumulator and
candidate. -/
theorem foldIfLtEqMax (b x : ℚ) : (if b < x then x else b) = max b x := by
  by_cases h : b < x
  · rw [if_pos h, max_eq_right h.le]
  · rw [if_neg h, max_eq_left (le_of_not_lt h)]

/-- The score fold of FindHighestScore is a fold of max over the mapped
scores. -/
theorem foldlScoreEqFoldlMax (l : List NodeAnchor) (b : ℚ) :
    l.foldl (fun highestScore a =>
      if highestScore < a.node.highestUnigramScore then
        a.node.highestUnigramScore
      else highestScore) b =
    (l.map (fun a => a.node.highestUnigramScore)).foldl max b := by
  induction l generalizing b with
  | nil => rfl
  | cons a rest ih =>
      rw [List.foldl_cons, List.map_cons, List.foldl_cons, foldIfLtEqMax,
        ih]

/-- A fold of max distributes over an initial max. -/
theorem foldlMaxShift (xs : List ℚ) : ∀ a b : ℚ,
    xs.foldl max (max a b) = max a (xs.foldl max b) := by
  induction xs with
  | nil => intro a b; rfl
  | cons x rest ih =>
      intro a b
      simp only [List.foldl_cons]
      rw [max_assoc, ih]

/-- FindHighestScore, seeded with 0.0 as in the source, yields epsilon
plus the genuine highest unigram score clamped from below at 0 — not
epsilon plus the highest unigram score itself. -/
theorem findHighestScoreEqClampedMax (anchors : List NodeAnchor)
    (epsilon : ℚ) :
    FindHighestScore anchors epsilon =
      max 0 (maxHighestUnigramScore anchors) + epsilon := by
  unfold FindHighestScore maxHighestUnigramScore
  rw [foldlScoreEqFoldlMax]
  cases h : anchors.map (fun a => a.node.highestUnigramScore) with
  | nil => simp
  | cons x xs =>
      simp only [List.foldl_cons]
      rw [foldlMaxShift]

/-- An environment whose grid for the single reading 3 carries one node
with the sole candidate X of score -1, and whose override model always
suggests X. -/
def envSuggest : GramEnv :=
  { buildNodes := fun readings =>
      if readings == ["3"] then
        [⟨{ key := "3", unigrams := [{ value := "X", score := -1 }] },
          0, 1⟩]
      else []
    walkFn := fun nodes => nodes
    suggest := fun _ _ => "X" }

/-- A language model knowing only the syllable 3. -/
def lmWith3 : LM := fun key =>
  if key == "3" then [{ value := "X", score := -1 }] else []

/-- Counterexample for C6 as stated: after composing the syllable 3 the
suggestion X is applied with score 0 + epsilon, because FindHighestScore
starts its fold at 0.0; the highest unigram score among the crossing
nodes is -1, and 0 + epsilon differs from -1 + epsilon, so the applied
score is not the highest unigram score plus epsilon. -/
theorem suggestionScoreClampCounterexample :
    (handle envSuggest demoLayout lmWith3 ⟨.other, false, some '3'⟩ .empty
      hsEmptyAll).trace =
      [GridOp.overrideScore 1 "X" ((0 : ℚ) + kEpsilon)] ∧
    maxHighestUnigramScore (nodesCrossingOrEndingAt
      (envSuggest.buildNodes ["3"]) 1) = -1 ∧
    (0 : ℚ) + kEpsilon ≠ -1 + kEpsilon := by
  refine ⟨rfl, rfl, ?_⟩
  intro h
  have h0 : (0 : ℚ) = -1 := add_right_cancel h
  norm_num at h0

/-- C6 (amended): Whenever, after inserting a complete syllable and
walking, the override model's suggest returns a non-empty value, the
handler applies it as a soft bias through
overrideNodeScoreForSelectedCandidate at the actual candidate cursor
index, with score equal to epsilon plus the maximum of 0 and the highest
unigram score among the nodes crossing or ending at that index; the
handler never issues a hard pin, and fixNodeSelectedCandidate is invoked
(only) by explicit candidate selection through pinNode. -/
theorem suggestionAppliedAsSoftBias (env : GramEnv)
    (layout : BopomofoLayout) (lm : LM) (key : Key) (state : InputState)
    (hs : HandlerState) (c : Char) (v : String)
    (hascii : key.ascii = some c)
    (hvalid : layout.isValidKey c = true)
    (htone : layout.hasToneMarker (hs.reading ++ [c]) = true)
    (hlm : (lm (layout.syllable (hs.reading ++ [c]))).isEmpty = false)
    (hsug : env.suggest (composeInsertOutcome env layout hs c).2.walkedNodes
        (composeInsertOutcome env layout hs c).2.cursor = v)
    (hv : v.isEmpty = false) :
    (handle env layout lm key state hs).trace =
      [GridOp.overrideScore
        (actualCandidateCursorIndex (composeInsertOutcome env layout hs c).2)
        v
        (FindHighestScore
          (nodesCrossingOrEndingAt
            (composeInsertOutcome env layout hs c).2.gridNodes
            (actualCandidateCursorIndex
              (composeInsertOutcome env layout hs c).2))
          kEpsilon)] ∧
    (handle env layout lm key state hs).afterState =
      overrideNodeScoreForSelectedCandidate
        (actualCandidateCursorIndex (composeInsertOutcome env layout hs c).2)
        v
        (FindHighestScore
          (nodesCrossingOrEndingAt
            (composeInsertOutcome env layout hs c).2.gridNodes
            (actualCandidateCursorIndex
              (composeInsertOutcome env layout hs c).2))
          kEpsilon)
        (composeInsertOutcome env layout hs c).2 ∧
    (∀ p w, GridOp.fixNode p w ∉ (handle env layout lm key state hs).trace) ∧
    (∀ candidate hsx,
      GridOp.fixNode (actualCandidateCursorIndex hsx) candidate ∈
        (pinNode env candidate hsx).2) ∧
    (∀ anchors : List NodeAnchor,
      FindHighestScore anchors kEpsilon =
        max 0 (maxHighestUnigramScore anchors) + kEpsilon) := by
  have hbase : (handle env layout lm key state hs).trace =
      [GridOp.overrideScore
        (actualCandidateCursorIndex (composeInsertOutcome env layout hs c).2)
        v
        (FindHighestScore
          (nodesCrossingOrEndingAt
            (composeInsertOutcome env layout hs c).2.gridNodes
            (actualCandidateCursorIndex
              (composeInsertOutcome env layout hs c).2))
          kEpsilon)] ∧
      (handle env layout lm key state hs).afterState =
      overrideNodeScoreForSelectedCandidate
        (actualCandidateCursorIndex (composeInsertOutcome env layout hs c).2)
        v
        (FindHighestScore
          (nodesCrossingOrEndingAt
            (composeInsertOutcome env layout hs c).2.gridNodes
            (actualCandidateCursorIndex
              (composeInsertOutcome env layout hs c).2))
          kEpsilon)
        (composeInsertOutcome env layout hs c).2 := by
    simp only [composeInsertOutcome] at hsug ⊢
    simp only [handle, hascii, Option.getD_some, hvalid, htone,
      hasUnigramsForKey, hlm, Bool.not_true, Bool.not_false, Bool.true_and,
      Bool.and_false, Bool.false_and, Bool.true_or, Bool.false_eq_true,
      if_true, if_false, ite_true, ite_false, hsug, hv]
    exact ⟨trivial, trivial⟩
  refine ⟨hbase.1, hbase.2, ?_, ?_,
    fun anchors => findHighestScoreEqClampedMax anchors kEpsilon⟩
  · intro p w
    rw [hbase.1]
    simp
  · intro candidate hsx
    simp only [pinNode]
    exact List.mem_cons_self _ _

/-- Witness for C6 (amended): composing the syllable 3 with the always-X
override model records exactly one soft-bias application at the actual
candidate cursor index. -/
theorem suggestionAppliedAsSoftBiasWitness :
    (handle envSuggest demoLayout lmWith3 ⟨.other, false, some '3'⟩ .empty
      hsEmptyAll).trace =
      [GridOp.overrideScore
        (actualCandidateCursorIndex
          (composeInsertOutcome envSuggest demoLayout hsEmptyAll '3').2)
        "X"
        (FindHighestScore
          (nodesCrossingOrEndingAt
            (composeInsertOutcome envSuggest demoLayout hsEmptyAll '3'
              ).2.gridNodes
            (actualCandidateCursorIndex
              (composeInsertOutcome envSuggest demoLayout hsEmptyAll '3'
                ).2))
          kEpsilon)] :=
  (suggestionAppliedAsSoftBias envSuggest demoLayout lmWith3
    ⟨.other, false, some '3'⟩ .empty hsEmptyAll '3' "X" rfl (by decide)
    (by decide) (by decide) rfl (by decide)).1

end McBopomofo
